import Mathlib

/-!
# Verification of the Yelay action provider

Shallow embedding of the Yelay action provider
(`src/typescript/agentkit/src/action-providers/yelay/`) and proofs about it.

The repository files concatenate several revisions of each module.  Unless
noted otherwise, definitions below embed the *latest* revision found in
`yelayActionProvider.ts` (the one using vault metadata for decimals, the
`YELAY_BACKEND_URL` backend and `CONTRACTS_BY_CHAIN`); `getVaultsTested`
embeds the provider revision contained in `yelayActionProvider.test.ts`,
whose output format is pinned by the repository's own tests and README.

External collaborators (the HTTP runtime, the wallet provider, viem's ABI
encoder) are abstracted: fetches and wallet calls are oracles supplied by a
"world" record, and ABI encoding is represented symbolically by the
`CallData` inductive.  Handlers return an `Except String String` whose
`.error` constructor stands for an uncaught JavaScript exception
propagating to the host framework, together with the list of external
calls they performed.
-/

namespace Yelay

/-! ## Backend data model (from `types.ts`, latest revision) -/

/-- One vault record of `GET /vaults` (`VaultsDetailsResponse` in `types.ts`). -/
structure VaultsDetailsResponse where
  address : String
  name : String
  symbol : String
  balance : String
  decimals : Nat
  deriving Repr, DecidableEq

/-- One APY record of `GET /interest/vaults` (`APYResponse` in `types.ts`).
The JS field `yield` is rendered `yieldValue` here (`yield` would shadow a
Lean builtin); it is never inspected by the code. -/
structure APYResponse where
  vault : String
  startBlock : Nat
  finishBlock : Nat
  startTimestamp : Nat
  finishTimestamp : Nat
  yieldValue : String
  apy : String
  deriving Repr, DecidableEq

/-- One claim-proof entry of `GET /claim-proof` (`ClaimRequest` in the
`types.ts` revision stored at `src/unnamed/part_000`). -/
structure ClaimRequest where
  yelayLiteVault : String
  pool : Nat
  cycle : Nat
  yieldSharesTotal : String
  blockNumber : Nat
  proof : List String
  deriving Repr, DecidableEq

/-! ## Constants (`constants.ts`) -/

/-- `RETAIL_POOL_ID` from `constants.ts`. -/
def RETAIL_POOL_ID : Nat := 10

/-- Contract-address pair of an `SDKConfig` (`types.ts`). -/
structure SDKContracts where
  VaultWrapper : String
  YieldExtractor : String
  deriving Repr, DecidableEq

/-- `SDKConfig` from `types.ts`. -/
structure SDKConfig where
  backendUrl : String
  contracts : SDKContracts
  deriving Repr, DecidableEq

/-- `getEnvironment` from `constants.ts`.  The TypeScript function throws
for invalid input; `.error e` models a thrown `Error` with message `e`.
`chainId` is a `Nat` because callers can bypass the `ChainId` union type. -/
def getEnvironment (chainId : Nat) (testing : Bool) : Except String SDKConfig :=
  if chainId ≠ 8453 ∧ testing then
    .error "Test environment is only supported for Base"
  else
    let backendUrl := "https://lite.api.yelay.io/v2"
    if chainId = 8453 then
      if testing then
        .ok ⟨"https://lite.dev.yelay.io/v2",
          ⟨"0xE252b5c05a18140F15E1941dD2Df8a95bDa8A20b",
           "0xf3b5e160898cfd8b89476e77887050abb377c277"⟩⟩
      else
        .ok ⟨backendUrl,
          ⟨"0xdccf337ea77b687a4daca5586351b08f8927c825",
           "0x4d6a89dc55d8bacc0cbc3824bd7e44fa051c3958"⟩⟩
    else if chainId = 1 then
      .ok ⟨backendUrl,
        ⟨"0xf65d02700915259602D9105b66401513D1CB61ff",
         "0x226239384EB7d78Cdf279BA6Fb458E2A4945E275"⟩⟩
    else if chainId = 146 then
      .ok ⟨backendUrl,
        ⟨"0x0872e8391662D4e53D6649c8dE5d4bF581Bd778C",
         "0xB84B621D3da3E5e47A1927883C685455Ad731D7C"⟩⟩
    else
      .error ("Chain " ++ toString chainId ++ " is not supported")

/-! ## Network support predicate (`yelayActionProvider.ts`) -/

/-- `SUPPORTED_NETWORKS` from `yelayActionProvider.ts`. -/
def SUPPORTED_NETWORKS : List String := ["1", "146", "8453"]

/-- The `Network` shape consumed by `supportsNetwork`: a protocol family
and an optional chain-id string (`undefined` modelled as `none`). -/
structure Network where
  protocolFamily : String
  chainId : Option String
  deriving Repr, DecidableEq

/-- `supportsNetwork` from `yelayActionProvider.ts` (both revisions have
the same logic):
`protocolFamily === "evm" && (chainId ? SUPPORTED_NETWORKS.includes(chainId) : false)`.
A present-but-empty chain id is falsy in JS; `includes ""` is also false,
so matching on `Option` alone is faithful. -/
def supportsNetwork (network : Network) : Bool :=
  network.protocolFamily == "evm" &&
    (match network.chainId with
     | some c => SUPPORTED_NETWORKS.contains c
     | none => false)

/-! ## String/number parsing helpers

`BigInt(string)` and viem's `parseUnits` are modelled on the grammar the
zod schemas admit (digit strings with an optional single `"."` fraction);
any string outside that grammar is mapped to `none`, standing for the
exception those functions throw on it. -/

/-- Split a character list at every `'.'` (JS `value.split(".")`). -/
def splitDot : List Char → List (List Char)
  | [] => [[]]
  | c :: rest =>
    match splitDot rest with
    | [] => [[]]
    | g :: gs => if c = '.' then [] :: g :: gs else (c :: g) :: gs

/-- Numeric value of a list of decimal digit characters. -/
def digitsVal (cs : List Char) : Nat :=
  cs.foldl (fun n c => 10 * n + (c.toNat - 48)) 0

/-- Parse a non-empty all-digit character list; `none` otherwise. -/
def digitsToNat? (cs : List Char) : Option Nat :=
  if cs ≠ [] ∧ cs.all (·.isDigit) then some (digitsVal cs) else none

/-- JS `BigInt(string)` restricted to the schema grammar: an all-digit
string yields its value, anything else (in particular a decimal string
such as `"0.1"`) throws, modelled as `none`. -/
def bigIntOfString (s : String) : Option Int :=
  (digitsToNat? s.data).map Int.ofNat

/-- viem `parseUnits(value, decimals)`: scale a decimal string to atomic
units. A fraction longer than `decimals` is truncated with half-up
rounding on the first dropped digit, as viem does; a string outside the
decimal grammar throws (`none`). -/
def parseUnits (s : String) (decimals : Nat) : Option Int :=
  match splitDot s.data with
  | [i] => (digitsToNat? i).map (fun n => ((n * 10 ^ decimals : Nat) : Int))
  | [i, f] =>
    match digitsToNat? i, digitsToNat? f with
    | some ni, some _ =>
      if f.length ≤ decimals then
        some ((ni * 10 ^ decimals + digitsVal f * 10 ^ (decimals - f.length) : Nat))
      else
        some ((ni * 10 ^ decimals + digitsVal (f.take decimals) +
          (if '5' ≤ f.getD decimals '0' then 1 else 0) : Nat))
    | _, _ => none
  | _ => none

/-! ## Input schemas (`schemas.ts`) -/

/-- `/^0x[a-fA-F0-9]{40}$/` — the address shape required by every schema. -/
def isEthAddress (s : String) : Bool :=
  match s.data with
  | '0' :: 'x' :: rest => rest.length == 40 && rest.all (fun c =>
      c.isDigit || ('a' ≤ c && c ≤ 'f') || ('A' ≤ c && c ≤ 'F'))
  | _ => false

/-- `/^\d+(\.\d+)?$/` — the `assets` shape of the deposit schema. -/
def isDecimalAmount (s : String) : Bool :=
  match splitDot s.data with
  | [i] => !i.isEmpty && i.all (·.isDigit)
  | [i, f] => !i.isEmpty && i.all (·.isDigit) && !f.isEmpty && f.all (·.isDigit)
  | _ => false

/-- `/^\d+$/` — the `assets` shape of the redeem and claim schemas. -/
def isWholeAmount (s : String) : Bool :=
  !s.data.isEmpty && s.data.all (·.isDigit)

/-- Input of the `deposit` action (fields of `YelayDepositSchema`). -/
structure DepositArgs where
  assets : String
  receiver : String
  tokenAddress : String
  vaultAddress : String
  deriving Repr, DecidableEq

/-- Acceptance predicate of `YelayDepositSchema` from `schemas.ts`. -/
def YelayDepositSchema (a : DepositArgs) : Bool :=
  isDecimalAmount a.assets && isEthAddress a.receiver &&
    isEthAddress a.tokenAddress && isEthAddress a.vaultAddress

/-- Input of the `redeem` action (fields of `YelayRedeemSchema`). -/
structure RedeemArgs where
  vaultAddress : String
  assets : String
  receiver : String
  deriving Repr, DecidableEq

/-- Acceptance predicate of `YelayRedeemSchema` from `schemas.ts`. -/
def YelayRedeemSchema (a : RedeemArgs) : Bool :=
  isEthAddress a.vaultAddress && isWholeAmount a.assets && isEthAddress a.receiver

/-- Input of the `claim` action (fields of `YelayClaimSchema`). -/
structure ClaimArgs where
  vaultAddress : String
  assets : String
  receiver : String
  deriving Repr, DecidableEq

/-- Acceptance predicate of `YelayClaimSchema` from `schemas.ts`. -/
def YelayClaimSchema (a : ClaimArgs) : Bool :=
  isEthAddress a.vaultAddress && isWholeAmount a.assets && isEthAddress a.receiver

/-- Input of the `get_balance` action. -/
structure BalanceArgs where
  vaultAddress : String
  deriving Repr, DecidableEq

/-- Modelled from the spec: `YelayBalanceSchema` is imported by the
provider but absent from the `schemas.ts` revisions in the sources; per
the spec the balance action takes only a vault address. -/
def YelayBalanceSchema (a : BalanceArgs) : Bool :=
  isEthAddress a.vaultAddress

/-! ## External world -/

/-- Outcome of a `fetch`: either the promise rejects (network error), or a
response arrives with its `ok` flag, status, status text, and a body whose
JSON decoding may itself fail. -/
inductive Fetched (α : Type) where
  | reject (e : String)
  | resp (ok : Bool) (status : Nat) (statusText : String) (body : Except String α)

/-- Symbolic form of the ABI-encoded calldata built with
`encodeFunctionData` (the encoder itself is an opaque collaborator). -/
inductive CallData where
  | depositCall (amount : Int) (poolId : Nat) (receiver : String)
  | redeemCall (amount : Int) (poolId : Nat) (receiver : String)
  | claimCall (entries : List ClaimRequest)
  deriving Repr, DecidableEq

/-- External calls a handler performs, in order. -/
inductive CallEvent where
  | fetchVaults
  | fetchAPYs
  | fetchClaimProof
  | approveTx (spender : String) (amount : Int)
  | sendTransaction (target : String) (data : CallData)
  | waitForReceipt (txHash : String)
  | readBalance (vault : String)
  | readYieldClaimed
  deriving Repr, DecidableEq

/-- Oracles the transaction handlers draw on.  Transaction receipts are
opaque to the code except for `JSON.stringify`, so a receipt is modelled
by its rendering.  `yieldExtractor` is modelled from the spec: the
provider resolves it through `CONTRACTS_BY_CHAIN`, whose definition is
not present in the source revisions; per the spec it is the chain's fixed
yield-extractor address. -/
structure TxWorld where
  vaultsFetch : Fetched (List VaultsDetailsResponse)
  claimProofFetch : Fetched (List ClaimRequest)
  approveResult : Except String Unit
  sendResult : Except String String
  receiptResult : Except String String
  balanceRead : Except String Int
  yieldClaimedRead : Except String Int
  yieldExtractor : String

/-- Oracles of the vault-listing action. -/
structure GetVaultsWorld where
  vaultsFetch : Fetched (List VaultsDetailsResponse)
  apysFetch : Fetched (List APYResponse)

/-- Result of one handler invocation: the returned string, or `.error`
for an uncaught exception reaching the host framework, together with the
external calls performed. -/
structure HandlerResult where
  result : Except String String
  calls : List CallEvent

/-! ## Vault listing (`getVaults`) -/

/-- Interpolating a possibly-`undefined` value into a JS template
literal renders `undefined` as the string `"undefined"`. -/
def renderUndefined : Option String → String
  | some a => a
  | none => "undefined"

/-- The vault/APY left join shared by every `getVaults` revision:
`vaults.map(vault => ({...vault, apy: vaultAPYs.find(apy => apy.vault === vault.address)?.apy}))`. -/
def joinVaultAPYs (vaults : List VaultsDetailsResponse) (vaultAPYs : List APYResponse) :
    List (VaultsDetailsResponse × Option String) :=
  vaults.map (fun vault =>
    (vault, (vaultAPYs.find? (fun apy => apy.vault == vault.address)).map (·.apy)))

/-- The constant user-facing failure message of `getVaults`. -/
def unavailableMsg : String :=
  "Yield backend is currently unavailable. Please try again later."

/-- Shared body of `getVaults`: both fetches, the `ok` checks (vaults
first), both JSON decodes, then the join; `.error` is the value thrown
into the surrounding catch. -/
def getVaultsJoin (w : GetVaultsWorld) :
    Except String (List (VaultsDetailsResponse × Option String)) :=
  match w.vaultsFetch, w.apysFetch with
  | .reject e, _ => .error e
  | .resp _ _ _ _, .reject e => .error e
  | .resp ok₁ st₁ sx₁ body₁, .resp ok₂ st₂ sx₂ body₂ =>
    if ok₁ = false then
      .error ("Failed to fetch vaults: " ++ toString st₁ ++ " " ++ sx₁)
    else if ok₂ = false then
      .error ("Failed to fetch APYs: " ++ toString st₂ ++ " " ++ sx₂)
    else
      match body₁, body₂ with
      | .error e, _ => .error e
      | .ok _, .error e => .error e
      | .ok vaults, .ok apys => .ok (joinVaultAPYs vaults apys)

/-- `getVaults` from `yelayActionProvider.ts` (latest revision, lines
371–412): renders each joined vault as a multi-line block and joins the
blocks with a dashed separator; the catch converts every failure into
`unavailableMsg`.  The result is always `.ok`: the whole body sits inside
the `try`. -/
def getVaults (w : GetVaultsWorld) : Except String String :=
  match getVaultsJoin w with
  | .ok details =>
    .ok (String.intercalate "\n----------------\n" (details.map (fun vault =>
      vault.1.name ++ ":\n          Address: " ++ vault.1.address ++
        "\n          APY: " ++ renderUndefined vault.2 ++ "%")))
  | .error _ => .ok unavailableMsg

/-- `getVaults` of the provider revision embedded in
`yelayActionProvider.test.ts` — the revision the repository's tests and
README pin: one line `"<name>: APY <apy>%"` per vault, joined by `"\n"`,
with the same fetch/join/catch structure. -/
def getVaultsTested (w : GetVaultsWorld) : Except String String :=
  match getVaultsJoin w with
  | .ok details =>
    .ok (String.intercalate "\n" (details.map (fun vault =>
      vault.1.name ++ ": APY " ++ renderUndefined vault.2 ++ "%")))
  | .error _ => .ok unavailableMsg

/-! ## Transaction handlers (`yelayActionProvider.ts`, latest revision) -/

/-- `deposit` (lines 439–478): `BigInt` conversion *outside* the
try/catch, positive-amount precheck, backend vault lookup by the receiver
address, `parseUnits` by the vault's decimals, approve, encode
`deposit(amount, poolId, receiver)`, send to the receiver address, await
the receipt, and render the success string; every failure inside the try
is caught and rendered with the `"Error depositing to Yelay Vault: "`
prefix. -/
def deposit (w : TxWorld) (args : DepositArgs) : HandlerResult :=
  match bigIntOfString args.assets with
  | none =>
    { result := .error ("SyntaxError: Cannot convert " ++ args.assets ++ " to a BigInt"),
      calls := [] }
  | some assets =>
    if assets ≤ 0 then
      { result := .ok "Error: Assets amount must be greater than 0", calls := [] }
    else
      match w.vaultsFetch with
      | .reject e =>
        { result := .ok ("Error depositing to Yelay Vault: " ++ e), calls := [.fetchVaults] }
      | .resp _ _ _ (.error e) =>
        { result := .ok ("Error depositing to Yelay Vault: " ++ e), calls := [.fetchVaults] }
      | .resp _ _ _ (.ok vaults) =>
        match vaults.find? (fun vault => vault.address == args.receiver) with
        | none => { result := .ok "Error: Vault not found", calls := [.fetchVaults] }
        | some vault =>
          match parseUnits args.assets vault.decimals with
          | none =>
            { result := .ok ("Error depositing to Yelay Vault: " ++ "InvalidDecimalNumberError"),
              calls := [.fetchVaults] }
          | some atomicAssets =>
            match w.approveResult with
            | .error e =>
              { result := .ok ("Error depositing to Yelay Vault: " ++ e),
                calls := [.fetchVaults, .approveTx args.receiver atomicAssets] }
            | .ok _ =>
              match w.sendResult with
              | .error e =>
                { result := .ok ("Error depositing to Yelay Vault: " ++ e),
                  calls := [.fetchVaults, .approveTx args.receiver atomicAssets,
                    .sendTransaction args.receiver
                      (.depositCall atomicAssets RETAIL_POOL_ID args.receiver)] }
              | .ok txHash =>
                match w.receiptResult with
                | .error e =>
                  { result := .ok ("Error depositing to Yelay Vault: " ++ e),
                    calls := [.fetchVaults, .approveTx args.receiver atomicAssets,
                      .sendTransaction args.receiver
                        (.depositCall atomicAssets RETAIL_POOL_ID args.receiver),
                      .waitForReceipt txHash] }
                | .ok receipt =>
                  { result := .ok ("Deposited " ++ args.assets ++ " to Yelay Vault " ++
                      args.receiver ++ " with transaction hash: " ++ txHash ++
                      "\nTransaction receipt: " ++ receipt),
                    calls := [.fetchVaults, .approveTx args.receiver atomicAssets,
                      .sendTransaction args.receiver
                        (.depositCall atomicAssets RETAIL_POOL_ID args.receiver),
                      .waitForReceipt txHash] }

/-- `redeem` (lines 498–534): same shape as `deposit` but with no approve
step, `redeem(amount, poolId, receiver)` calldata, and the
`"Error redeeming from Yelay Vault: "` prefix.  Note the code applies
`parseUnits(args.assets, vault.decimals)` to the amount. -/
def redeem (w : TxWorld) (args : RedeemArgs) : HandlerResult :=
  match bigIntOfString args.assets with
  | none =>
    { result := .error ("SyntaxError: Cannot convert " ++ args.assets ++ " to a BigInt"),
      calls := [] }
  | some assets =>
    if assets ≤ 0 then
      { result := .ok "Error: Assets amount must be greater than 0", calls := [] }
    else
      match w.vaultsFetch with
      | .reject e =>
        { result := .ok ("Error redeeming from Yelay Vault: " ++ e), calls := [.fetchVaults] }
      | .resp _ _ _ (.error e) =>
        { result := .ok ("Error redeeming from Yelay Vault: " ++ e), calls := [.fetchVaults] }
      | .resp _ _ _ (.ok vaults) =>
        match vaults.find? (fun vault => vault.address == args.receiver) with
        | none => { result := .ok "Error: Vault not found", calls := [.fetchVaults] }
        | some vault =>
          match parseUnits args.assets vault.decimals with
          | none =>
            { result := .ok ("Error redeeming from Yelay Vault: " ++ "InvalidDecimalNumberError"),
              calls := [.fetchVaults] }
          | some atomicAssets =>
            match w.sendResult with
            | .error e =>
              { result := .ok ("Error redeeming from Yelay Vault: " ++ e),
                calls := [.fetchVaults, .sendTransaction args.receiver
                  (.redeemCall atomicAssets RETAIL_POOL_ID args.receiver)] }
            | .ok txHash =>
              match w.receiptResult with
              | .error e =>
                { result := .ok ("Error redeeming from Yelay Vault: " ++ e),
                  calls := [.fetchVaults, .sendTransaction args.receiver
                    (.redeemCall atomicAssets RETAIL_POOL_ID args.receiver),
                    .waitForReceipt txHash] }
              | .ok receipt =>
                { result := .ok ("Redeemed " ++ args.assets ++ " from Yelay Vault " ++
                    args.receiver ++ " with transaction hash: " ++ txHash ++
                    "\nTransaction receipt: " ++ receipt),
                  calls := [.fetchVaults, .sendTransaction args.receiver
                    (.redeemCall atomicAssets RETAIL_POOL_ID args.receiver),
                    .waitForReceipt txHash] }

/-- `claim` (lines 553–587): outer try fetches and decodes the
claim-proof list (failures prefixed
`"Error obtaining proof for yield to claim from Yelay Vault: "`); the
inner try encodes `claim(entries)`, sends it to the yield extractor and
awaits the receipt (failures prefixed
`"Error claiming yield from Yelay Vault: "`); on success one line per
entry, joined by `"\n"`. -/
def claim (w : TxWorld) (args : ClaimArgs) : HandlerResult :=
  match w.claimProofFetch with
  | .reject e =>
    { result := .ok ("Error obtaining proof for yield to claim from Yelay Vault: " ++ e),
      calls := [.fetchClaimProof] }
  | .resp _ _ _ (.error e) =>
    { result := .ok ("Error obtaining proof for yield to claim from Yelay Vault: " ++ e),
      calls := [.fetchClaimProof] }
  | .resp _ _ _ (.ok claimRequests) =>
    match w.sendResult with
    | .error e =>
      { result := .ok ("Error claiming yield from Yelay Vault: " ++ e),
        calls := [.fetchClaimProof,
          .sendTransaction w.yieldExtractor (.claimCall claimRequests)] }
    | .ok txHash =>
      match w.receiptResult with
      | .error e =>
        { result := .ok ("Error claiming yield from Yelay Vault: " ++ e),
          calls := [.fetchClaimProof,
            .sendTransaction w.yieldExtractor (.claimCall claimRequests),
            .waitForReceipt txHash] }
      | .ok receipt =>
        { result := .ok (String.intercalate "\n" (claimRequests.map (fun c =>
            "Claimed " ++ c.yieldSharesTotal ++ " from Yelay Vault " ++ args.vaultAddress ++
              " with transaction hash: " ++ txHash ++ "\nTransaction receipt: " ++ receipt))),
          calls := [.fetchClaimProof,
            .sendTransaction w.yieldExtractor (.claimCall claimRequests),
            .waitForReceipt txHash] }

/-- `getBalance` (lines 605–644): on-chain balance read, claim-proof
fetch with an `ok` check, then either the short balance line or the
three-line report after reading `yieldSharesClaimed`; every failure is
caught and prefixed `"Error getting balance from Yelay Vault: "`. -/
def getBalance (w : TxWorld) (args : BalanceArgs) : HandlerResult :=
  match w.balanceRead with
  | .error e =>
    { result := .ok ("Error getting balance from Yelay Vault: " ++ e),
      calls := [.readBalance args.vaultAddress] }
  | .ok balance =>
    match w.claimProofFetch with
    | .reject e =>
      { result := .ok ("Error getting balance from Yelay Vault: " ++ e),
        calls := [.readBalance args.vaultAddress, .fetchClaimProof] }
    | .resp ok _ _ body =>
      if ok = false then
        { result := .ok ("Error getting balance from Yelay Vault: " ++
            "Error: Claim proof failed"),
          calls := [.readBalance args.vaultAddress, .fetchClaimProof] }
      else
        match body with
        | .error e =>
          { result := .ok ("Error getting balance from Yelay Vault: " ++ e),
            calls := [.readBalance args.vaultAddress, .fetchClaimProof] }
        | .ok [] =>
          { result := .ok ("User balance from Yelay Vault " ++ args.vaultAddress ++ ": " ++
              toString balance),
            calls := [.readBalance args.vaultAddress, .fetchClaimProof] }
        | .ok (claimRequest :: _) =>
          match w.yieldClaimedRead with
          | .error e =>
            { result := .ok ("Error getting balance from Yelay Vault: " ++ e),
              calls := [.readBalance args.vaultAddress, .fetchClaimProof, .readYieldClaimed] }
          | .ok yieldSharesClaimed =>
            { result := .ok ("\n      User balance from Yelay Vault " ++ args.vaultAddress ++
                ": " ++ toString balance ++ "\n      Yield shares generated: " ++
                claimRequest.yieldSharesTotal ++ "\n      Yield shares claimed: " ++
                toString yieldSharesClaimed),
              calls := [.readBalance args.vaultAddress, .fetchClaimProof, .readYieldClaimed] }

/-! ## Auxiliary predicates and concrete fixtures -/

/-- A fetch outcome that the `getVaults` failure handling reacts to:
promise rejection, non-success status (`ok = false`), or JSON decode
failure. -/
def Fetched.failed {α : Type} : Fetched α → Prop
  | .reject _ => True
  | .resp ok _ _ body => ok = false ∨ ∃ e, body = .error e

/-- `sub` occurs as a contiguous substring of `s`. -/
def strContains (s sub : String) : Prop :=
  ∃ pre post, s = pre ++ sub ++ post

/-- The invocation produced a response string (`.ok`), i.e. no exception
escaped to the host framework. -/
def returnsString : Except String String → Bool
  | .ok _ => true
  | .error _ => false

/-- A well-formed vault address used by the concrete witnesses. -/
def addrA : String := "0x1234567890123456789012345678901234567890"

/-- A second well-formed address used by the concrete witnesses. -/
def addrB : String := "0x9876543210987654321098765432109876543210"

/-- Vault list of the README/test example. -/
def demoVaults : List VaultsDetailsResponse :=
  [⟨"0x123", "Base WETH Vault", "WETH", "1000", 18⟩,
   ⟨"0x456", "Base USDC Vault", "USDC", "500000", 6⟩]

/-- APY list of the README/test example. -/
def demoAPYs : List APYResponse :=
  [⟨"0x123", 1000, 2000, 1234567890, 1234667890, "100", "3.4"⟩,
   ⟨"0x456", 1000, 2000, 1234567890, 1234667890, "50", "5.2"⟩]

/-- An 18-decimals vault whose address is `addrA`. -/
def demoVault : VaultsDetailsResponse := ⟨addrA, "Base WETH Vault", "WETH", "1000", 18⟩

/-- A single claim-proof entry. -/
def demoClaim : ClaimRequest := ⟨addrA, 10, 1, "100", 1234567, ["0xproof"]⟩

/-- A world in which every external call succeeds. -/
def txWorldOk : TxWorld where
  vaultsFetch := .resp true 200 "OK" (.ok [demoVault])
  claimProofFetch := .resp true 200 "OK" (.ok [demoClaim])
  approveResult := .ok ()
  sendResult := .ok "0xabcdef1234567890"
  receiptResult := .ok "receipt-json"
  balanceRead := .ok 0
  yieldClaimedRead := .ok 0
  yieldExtractor := "0xf3b5e160898cfd8b89476e77887050abb377c277"

/-- Like `txWorldOk` but the claim-proof endpoint returns an empty list. -/
def txWorldEmptyClaims : TxWorld :=
  { txWorldOk with claimProofFetch := .resp true 200 "OK" (.ok []) }

end Yelay

namespace Yelay

/-! ## Helper lemmas -/

/-- `List.find?` returns the head of the filtered list: the first match
in response order. -/
theorem find?_eq_head?_filter (p : α → Bool) (l : List α) :
    l.find? p = (l.filter p).head? := by
  induction l with
  | nil => rfl
  | cons a l ih =>
    cases h : p a with
    | true => rw [List.find?_cons_of_pos _ h, List.filter_cons_of_pos h, List.head?_cons]
    | false =>
      rw [List.find?_cons_of_neg _ (by simp [h]), List.filter_cons_of_neg (by simp [h]), ih]

/-- `splitDot` leaves a dot-free character list whole. -/
theorem splitDot_eq_single (cs : List Char) (h : '.' ∉ cs) : splitDot cs = [cs] := by
  induction cs with
  | nil => rfl
  | cons c rest ih =>
    have hc : ¬(c = '.') := fun hcc => h (hcc ▸ List.mem_cons_self c rest)
    have hr : '.' ∉ rest := fun hm => h (List.mem_cons_of_mem _ hm)
    simp only [splitDot, ih hr]
    simp [hc]

/-- A list of decimal digits contains no dot. -/
theorem digits_no_dot {cs : List Char} (h : cs.all (·.isDigit) = true) : '.' ∉ cs := by
  intro hm
  have := List.all_eq_true.mp h '.' hm
  exact absurd this (by decide)

/-- Inversion for `digitsToNat?`. -/
theorem digitsToNat?_eq_some {cs : List Char} {n : Nat}
    (h : digitsToNat? cs = some n) :
    (cs ≠ [] ∧ cs.all (·.isDigit) = true) ∧ digitsVal cs = n := by
  unfold digitsToNat? at h
  split at h
  · rename_i hcond
    exact ⟨hcond, Option.some.inj h⟩
  · exact absurd h (by simp)

/-- On a whole-number string, `parseUnits` is exactly multiplication by
`10 ^ decimals`. -/
theorem parseUnits_whole (s : String) (d n : Nat)
    (h : digitsToNat? s.data = some n) :
    parseUnits s d = some (Int.ofNat (n * 10 ^ d)) := by
  obtain ⟨⟨-, hdig⟩, -⟩ := digitsToNat?_eq_some h
  unfold parseUnits
  rw [splitDot_eq_single s.data (digits_no_dot hdig)]
  simp [h, Int.ofNat_eq_coe]

/-- A schema-accepted whole-number amount converts with `BigInt` without
throwing. -/
theorem bigIntOfString_whole {s : String} (h : isWholeAmount s = true) :
    bigIntOfString s = some (Int.ofNat (digitsVal s.data)) := by
  unfold isWholeAmount at h
  rw [Bool.and_eq_true] at h
  have h1 : s.data ≠ [] := by
    intro he
    have := h.1
    rw [he] at this
    simp at this
  unfold bigIntOfString digitsToNat?
  rw [if_pos ⟨h1, h.2⟩]
  rfl

/-- Substring witness from an append decomposition. -/
theorem strContains_of_eq (s pre sub post : String) (h : s = pre ++ (sub ++ post)) :
    strContains s sub :=
  ⟨pre, post, by rw [h, String.append_assoc]⟩

/-- Any failure of either fetch makes the shared `getVaults` body throw
into the catch. -/
theorem getVaultsJoin_error_of_failed (w : GetVaultsWorld)
    (h : w.vaultsFetch.failed ∨ w.apysFetch.failed) :
    ∃ e, getVaultsJoin w = .error e := by
  unfold getVaultsJoin
  cases hv : w.vaultsFetch with
  | reject e => cases ha : w.apysFetch <;> exact ⟨_, rfl⟩
  | resp ok₁ st₁ sx₁ body₁ =>
    cases ha : w.apysFetch with
    | reject e => exact ⟨_, rfl⟩
    | resp ok₂ st₂ sx₂ body₂ =>
      rw [hv, ha] at h
      cases ok₁ with
      | false => exact ⟨_, rfl⟩
      | true =>
        cases ok₂ with
        | false => exact ⟨_, rfl⟩
        | true =>
          simp only [Fetched.failed] at h
          rcases h with (h | ⟨e, he⟩) | (h | ⟨e, he⟩)
          · exact absurd h (by simp)
          · subst he
            cases body₂ <;> exact ⟨_, rfl⟩
          · exact absurd h (by simp)
          · subst he
            cases body₁ with
            | error e₁ => exact ⟨_, rfl⟩
            | ok v => exact ⟨_, rfl⟩

/-! ## Theorems: configuration resolver and support predicate -/

/-- C7: for chain ids 1, 146, 8453 the resolver returns a config with
non-empty backend URL and two non-empty contract addresses; for every
other chain id it fails (with the unsupported-chain message when test mode
is off), and for every chain id other than 8453 requesting test mode fails
with the invalid-configuration message. -/
theorem getEnvironment_chain_config (c : Nat) :
    ((c = 1 ∨ c = 146 ∨ c = 8453) →
      ∃ cfg, getEnvironment c false = .ok cfg ∧
        cfg.backendUrl ≠ "" ∧
        cfg.contracts.VaultWrapper ≠ "" ∧
        cfg.contracts.YieldExtractor ≠ "") ∧
    (¬(c = 1 ∨ c = 146 ∨ c = 8453) →
      (∀ t : Bool, ∃ e, getEnvironment c t = .error e) ∧
      getEnvironment c false = .error ("Chain " ++ toString c ++ " is not supported")) ∧
    (c ≠ 8453 →
      getEnvironment c true = .error "Test environment is only supported for Base") := by
  refine ⟨?_, ?_, ?_⟩
  · rintro (rfl | rfl | rfl) <;> exact ⟨_, rfl, by decide, by decide, by decide⟩
  · intro h
    have h1 : c ≠ 1 := fun hc => h (Or.inl hc)
    have h2 : c ≠ 146 := fun hc => h (Or.inr (Or.inl hc))
    have h3 : c ≠ 8453 := fun hc => h (Or.inr (Or.inr hc))
    constructor
    · intro t
      cases t <;> simp [getEnvironment, h1, h2, h3]
    · simp [getEnvironment, h1, h2, h3]
  · intro h
    simp [getEnvironment, h]

/-- Witness for `getEnvironment_chain_config`: concrete checks at chain
ids 8453 (supported), 2 (unsupported) and 1 (test mode rejected). -/
theorem getEnvironment_chain_config_witness :
    (∃ cfg, getEnvironment 8453 false = .ok cfg ∧
      cfg.backendUrl ≠ "" ∧
      cfg.contracts.VaultWrapper ≠ "" ∧
      cfg.contracts.YieldExtractor ≠ "") ∧
    getEnvironment 2 false = .error ("Chain " ++ toString 2 ++ " is not supported") ∧
    getEnvironment 1 true = .error "Test environment is only supported for Base" :=
  ⟨(getEnvironment_chain_config 8453).1 (Or.inr (Or.inr rfl)),
   ((getEnvironment_chain_config 2).2.1 (by decide)).2,
   (getEnvironment_chain_config 1).2.2 (by decide)⟩

/-- C8: `supportsNetwork` is true iff the protocol family is `"evm"` and
the chain id string is one of `"1"`, `"146"`, `"8453"`; in particular it
is false for any other protocol family regardless of chain id. -/
theorem supportsNetwork_characterization (n : Network) :
    (supportsNetwork n = true ↔
      n.protocolFamily = "evm" ∧
        ∃ c, n.chainId = some c ∧ (c = "1" ∨ c = "146" ∨ c = "8453")) ∧
    (n.protocolFamily ≠ "evm" → supportsNetwork n = false) := by
  constructor
  · cases hn : n.chainId with
    | none =>
      simp only [supportsNetwork, hn, Bool.and_false]
      constructor
      · intro h; cases h
      · rintro ⟨-, c, hc, -⟩; cases hc
    | some c =>
      simp only [supportsNetwork, hn, Bool.and_eq_true, beq_iff_eq]
      constructor
      · rintro ⟨hfam, hmem⟩
        refine ⟨hfam, c, rfl, ?_⟩
        have : c ∈ SUPPORTED_NETWORKS := by
          simpa [List.contains_iff_exists_mem_beq, beq_iff_eq] using hmem
        simpa [SUPPORTED_NETWORKS] using this
      · rintro ⟨hfam, c', hc', hmem⟩
        injection hc' with hcc
        subst hcc
        refine ⟨hfam, ?_⟩
        rcases hmem with rfl | rfl | rfl <;> decide
  · intro h
    cases hs : supportsNetwork n with
    | false => rfl
    | true =>
      exfalso
      apply h
      have := hs
      simp only [supportsNetwork, Bool.and_eq_true, beq_iff_eq] at this
      exact this.1

/-- Witness for `supportsNetwork_characterization`: the predicate accepts
(evm, "8453") and rejects a non-EVM family with a supported chain id. -/
theorem supportsNetwork_characterization_witness :
    supportsNetwork ⟨"evm", some "8453"⟩ = true ∧
    supportsNetwork ⟨"svm", some "8453"⟩ = false :=
  ⟨(supportsNetwork_characterization ⟨"evm", some "8453"⟩).1.mpr
     ⟨rfl, "8453", rfl, Or.inr (Or.inr rfl)⟩,
   (supportsNetwork_characterization ⟨"svm", some "8453"⟩).2 (by decide)⟩

end Yelay

namespace Yelay

/-! ## Theorems: vault listing -/

/-- C1: whenever either backend fetch fails — the promise rejects, the
response has a non-success status, or the body fails to decode — the
current `getVaults` revision returns (does not throw) the constant
user-facing message, whichever of the two fetches failed. -/
theorem getVaults_failure_returns_constant (w : GetVaultsWorld)
    (h : w.vaultsFetch.failed ∨ w.apysFetch.failed) :
    getVaults w = .ok unavailableMsg := by
  obtain ⟨e, he⟩ := getVaultsJoin_error_of_failed w h
  unfold getVaults
  rw [he]

/-- Witness for `getVaults_failure_returns_constant`: a rejected
vault-list fetch, and separately a 500 on the APY fetch, both yield the
constant message. -/
theorem getVaults_failure_returns_constant_witness :
    getVaults ⟨.reject "Error: network down", .resp true 200 "OK" (.ok demoAPYs)⟩ =
      .ok unavailableMsg ∧
    getVaults ⟨.resp true 200 "OK" (.ok demoVaults),
      .resp false 500 "Internal Server Error" (.ok demoAPYs)⟩ = .ok unavailableMsg :=
  ⟨getVaults_failure_returns_constant _ (Or.inl trivial),
   getVaults_failure_returns_constant _ (Or.inr (Or.inl rfl))⟩

/-- C2: on a successful pair of backend responses, the tested `getVaults`
revision left-joins each vault to the *first* APY record (in response
order) whose `vault` address equals the vault's `address` — unmatched
vaults render the JS `undefined` — and returns the lines
`"<name>: APY <apy>%"` joined by `"\n"` in the original vault-list
order. -/
theorem getVaultsTested_join_and_render (w : GetVaultsWorld)
    (vaults : List VaultsDetailsResponse) (apys : List APYResponse)
    (st₁ st₂ : Nat) (sx₁ sx₂ : String)
    (hv : w.vaultsFetch = .resp true st₁ sx₁ (.ok vaults))
    (ha : w.apysFetch = .resp true st₂ sx₂ (.ok apys)) :
    getVaultsTested w = .ok (String.intercalate "\n" (vaults.map (fun vault =>
      vault.name ++ ": APY " ++
        renderUndefined
          (((apys.filter (fun apy => apy.vault == vault.address)).head?).map (·.apy)) ++
        "%"))) := by
  unfold getVaultsTested getVaultsJoin
  rw [hv, ha]
  simp only [if_neg (show ¬(true = false) by decide)]
  congr 1
  unfold joinVaultAPYs
  rw [List.map_map]
  congr 1
  refine List.map_congr_left fun v _ => ?_
  simp only [Function.comp]
  rw [find?_eq_head?_filter]

/-- Witness for `getVaultsTested_join_and_render`: the README/test
example renders to
`"Base WETH Vault: APY 3.4%\nBase USDC Vault: APY 5.2%"`. -/
theorem getVaultsTested_join_and_render_witness :
    getVaultsTested ⟨.resp true 200 "OK" (.ok demoVaults), .resp true 200 "OK" (.ok demoAPYs)⟩ =
      .ok "Base WETH Vault: APY 3.4%\nBase USDC Vault: APY 5.2%" := by
  rw [getVaultsTested_join_and_render _ demoVaults demoAPYs 200 200 "OK" "OK" rfl rfl]
  rfl

end Yelay

namespace Yelay

/-! ## Theorems: deposit and redeem -/

/-- C3: for a positive whole-unit amount, `deposit` reads the vault's
decimal precision, scales the amount to `n * 10 ^ decimals` atomic units,
encodes `deposit(amount, poolId, receiver)`, submits it through the
wallet, awaits the receipt, and returns a string containing the original
amount, the transaction hash, and the receipt's rendered form. -/
theorem deposit_whole_amount (w : TxWorld) (args : DepositArgs)
    (n : Nat) (ok : Bool) (st : Nat) (sx : String)
    (vaults : List VaultsDetailsResponse) (vault : VaultsDetailsResponse)
    (txHash receipt : String)
    (hn : digitsToNat? args.assets.data = some n) (hpos : 0 < n)
    (hv : w.vaultsFetch = .resp ok st sx (.ok vaults))
    (hfind : vaults.find? (fun v => v.address == args.receiver) = some vault)
    (happrove : w.approveResult = .ok ())
    (hsend : w.sendResult = .ok txHash)
    (hreceipt : w.receiptResult = .ok receipt) :
    ∃ msg, deposit w args =
      { result := .ok msg,
        calls := [.fetchVaults,
          .approveTx args.receiver (Int.ofNat (n * 10 ^ vault.decimals)),
          .sendTransaction args.receiver
            (.depositCall (Int.ofNat (n * 10 ^ vault.decimals)) RETAIL_POOL_ID args.receiver),
          .waitForReceipt txHash] } ∧
      msg = "Deposited " ++ args.assets ++ " to Yelay Vault " ++ args.receiver ++
        " with transaction hash: " ++ txHash ++ "\nTransaction receipt: " ++ receipt ∧
      strContains msg args.assets ∧ strContains msg txHash ∧ strContains msg receipt := by
  have hbig : bigIntOfString args.assets = some (Int.ofNat n) := by
    unfold bigIntOfString
    rw [hn]
    rfl
  have hle : ¬(Int.ofNat n ≤ 0) := by
    intro hcon
    have hcon' : (n : Int) ≤ 0 := hcon
    omega
  have hpu := parseUnits_whole args.assets vault.decimals n hn
  refine ⟨_, ?_, rfl, ?_, ?_, ?_⟩
  · simp only [deposit, hbig, hv, hfind, hpu, happrove, hsend, hreceipt, hle, if_false,
      ite_false, if_neg hle]
  · exact strContains_of_eq _ "Deposited " args.assets
      (" to Yelay Vault " ++ args.receiver ++ " with transaction hash: " ++ txHash ++
        "\nTransaction receipt: " ++ receipt)
      (by simp [String.append_assoc])
  · exact strContains_of_eq _
      ("Deposited " ++ args.assets ++ " to Yelay Vault " ++ args.receiver ++
        " with transaction hash: ") txHash
      ("\nTransaction receipt: " ++ receipt)
      (by simp [String.append_assoc])
  · exact strContains_of_eq _
      ("Deposited " ++ args.assets ++ " to Yelay Vault " ++ args.receiver ++
        " with transaction hash: " ++ txHash ++ "\nTransaction receipt: ") receipt ""
      (by simp [String.append_assoc])

/-- Witness for `deposit_whole_amount`: depositing `"1"` into an
18-decimals vault encodes `10^18` atomic units and renders the success
string. -/
theorem deposit_whole_amount_witness :
    deposit txWorldOk ⟨"1", addrA, addrB, addrA⟩ =
      { result := .ok ("Deposited 1 to Yelay Vault " ++ addrA ++
          " with transaction hash: 0xabcdef1234567890\nTransaction receipt: receipt-json"),
        calls := [.fetchVaults, .approveTx addrA (Int.ofNat 1000000000000000000),
          .sendTransaction addrA
            (.depositCall (Int.ofNat 1000000000000000000) RETAIL_POOL_ID addrA),
          .waitForReceipt "0xabcdef1234567890"] } := by
  obtain ⟨msg, heq, hmsg, -, -, -⟩ :=
    deposit_whole_amount txWorldOk ⟨"1", addrA, addrB, addrA⟩ 1 true 200 "OK"
      [demoVault] demoVault "0xabcdef1234567890" "receipt-json"
      (by decide) (by decide) rfl (by decide) rfl rfl rfl
  rw [heq, hmsg]
  rfl

/-- C4 evidence: `redeem` with `assets = "1"` — an amount its own action
description and schema declare to be *atomic units* — against an
18-decimals vault encodes the scaled amount `10^18`, not `1`: the code
applies `parseUnits(args.assets, vault.decimals)` where the repository's
test expects the unscaled `BigInt(args.assets)`. -/
theorem redeem_applies_decimal_scaling :
    (redeem txWorldOk ⟨addrA, "1", addrA⟩).calls =
      [.fetchVaults,
       .sendTransaction addrA
         (.redeemCall (Int.ofNat 1000000000000000000) RETAIL_POOL_ID addrA),
       .waitForReceipt "0xabcdef1234567890"] ∧
    Int.ofNat 1000000000000000000 ≠ (1 : Int) := by
  exact ⟨by decide, by decide⟩

end Yelay

namespace Yelay

/-! ## Theorems: exception propagation policy -/

/-- C5 counterexample: the deposit schema accepts the decimal string
`"0.1"`, but `deposit` converts `assets` with `BigInt` *outside* its
try/catch, so the conversion error propagates to the host framework
instead of being returned as a string. -/
theorem deposit_decimal_input_uncaught :
    YelayDepositSchema ⟨"0.1", addrA, addrB, addrA⟩ = true ∧
    (deposit txWorldOk ⟨"0.1", addrA, addrB, addrA⟩).result =
      .error "SyntaxError: Cannot convert 0.1 to a BigInt" :=
  ⟨by decide, rfl⟩

/-- C5 (amended): for schema-accepted inputs every public handler returns
a string and never propagates an exception, *except* that `deposit`'s
`BigInt` conversion sits outside its try/catch, so its guarantee needs
the extra assumption that `assets` is a whole-number string (`redeem`
converts outside the try too, but its schema admits only whole
numbers). -/
theorem handlers_return_strings (w : TxWorld) (gw : GetVaultsWorld)
    (dargs : DepositArgs) (rargs : RedeemArgs) (cargs : ClaimArgs) (bargs : BalanceArgs)
    (hd : YelayDepositSchema dargs = true)
    (hdWhole : isWholeAmount dargs.assets = true)
    (hr : YelayRedeemSchema rargs = true)
    (hc : YelayClaimSchema cargs = true)
    (hb : YelayBalanceSchema bargs = true) :
    returnsString (deposit w dargs).result = true ∧
    returnsString (redeem w rargs).result = true ∧
    returnsString (claim w cargs).result = true ∧
    returnsString (getBalance w bargs).result = true ∧
    returnsString (getVaults gw) = true := by
  refine ⟨?_, ?_, ?_, ?_, ?_⟩
  · have hbig := bigIntOfString_whole hdWhole
    simp only [deposit, hbig]
    repeat' first | rfl | split
  · simp only [YelayRedeemSchema, Bool.and_eq_true] at hr
    have hbig := bigIntOfString_whole hr.1.2
    simp only [redeem, hbig]
    repeat' first | rfl | split
  · simp only [claim]
    repeat' first | rfl | split
  · simp only [getBalance]
    repeat' first | rfl | split
  · simp only [getVaults]
    repeat' first | rfl | split

/-- Witness for `handlers_return_strings`: concrete schema-valid inputs
against the all-success world (and a failing fetch world for the vault
listing) all produce response strings. -/
theorem handlers_return_strings_witness :
    returnsString (deposit txWorldOk ⟨"1", addrA, addrB, addrA⟩).result = true ∧
    returnsString (redeem txWorldOk ⟨addrA, "5", addrB⟩).result = true ∧
    returnsString (claim txWorldOk ⟨addrA, "5", addrB⟩).result = true ∧
    returnsString (getBalance txWorldOk ⟨addrA⟩).result = true ∧
    returnsString (getVaults ⟨.reject "Error: network down", .reject "Error: network down"⟩) =
      true :=
  handlers_return_strings txWorldOk ⟨.reject "Error: network down", .reject "Error: network down"⟩
    ⟨"1", addrA, addrB, addrA⟩ ⟨addrA, "5", addrB⟩ ⟨addrA, "5", addrB⟩ ⟨addrA⟩
    (by decide) (by decide) (by decide) (by decide) (by decide)

end Yelay

namespace Yelay

/-! ## Theorems: claim handler -/

/-- C6: when the claim-proof fetch decodes to `es` and the transaction
succeeds, `claim` renders one line per entry of `es`, in order, each
containing the entry's `yieldSharesTotal`, the vault address, the
transaction hash and the rendered receipt, joined by `"\n"`; a
claim-proof failure is prefixed
`"Error obtaining proof for yield to claim from Yelay Vault: "` and a
transaction failure is prefixed with the distinct
`"Error claiming yield from Yelay Vault: "`. -/
theorem claim_renders_entries_and_error_domains :
    (∀ (w : TxWorld) (args : ClaimArgs) (ok : Bool) (st : Nat) (sx : String)
        (es : List ClaimRequest) (txHash receipt : String),
        w.claimProofFetch = .resp ok st sx (.ok es) →
        w.sendResult = .ok txHash →
        w.receiptResult = .ok receipt →
        claim w args =
          { result := .ok (String.intercalate "\n" (es.map (fun c =>
              "Claimed " ++ c.yieldSharesTotal ++ " from Yelay Vault " ++ args.vaultAddress ++
                " with transaction hash: " ++ txHash ++ "\nTransaction receipt: " ++ receipt))),
            calls := [.fetchClaimProof,
              .sendTransaction w.yieldExtractor (.claimCall es),
              .waitForReceipt txHash] } ∧
        ∀ c : ClaimRequest,
          strContains ("Claimed " ++ c.yieldSharesTotal ++ " from Yelay Vault " ++
              args.vaultAddress ++ " with transaction hash: " ++ txHash ++
              "\nTransaction receipt: " ++ receipt) c.yieldSharesTotal ∧
          strContains ("Claimed " ++ c.yieldSharesTotal ++ " from Yelay Vault " ++
              args.vaultAddress ++ " with transaction hash: " ++ txHash ++
              "\nTransaction receipt: " ++ receipt) args.vaultAddress ∧
          strContains ("Claimed " ++ c.yieldSharesTotal ++ " from Yelay Vault " ++
              args.vaultAddress ++ " with transaction hash: " ++ txHash ++
              "\nTransaction receipt: " ++ receipt) txHash ∧
          strContains ("Claimed " ++ c.yieldSharesTotal ++ " from Yelay Vault " ++
              args.vaultAddress ++ " with transaction hash: " ++ txHash ++
              "\nTransaction receipt: " ++ receipt) receipt) ∧
    (∀ (w : TxWorld) (args : ClaimArgs) (e : String),
        w.claimProofFetch = .reject e →
        (claim w args).result =
          .ok ("Error obtaining proof for yield to claim from Yelay Vault: " ++ e)) ∧
    (∀ (w : TxWorld) (args : ClaimArgs) (ok : Bool) (st : Nat) (sx e : String),
        w.claimProofFetch = .resp ok st sx (.error e) →
        (claim w args).result =
          .ok ("Error obtaining proof for yield to claim from Yelay Vault: " ++ e)) ∧
    (∀ (w : TxWorld) (args : ClaimArgs) (ok : Bool) (st : Nat) (sx : String)
        (es : List ClaimRequest) (e : String),
        w.claimProofFetch = .resp ok st sx (.ok es) →
        w.sendResult = .error e →
        (claim w args).result = .ok ("Error claiming yield from Yelay Vault: " ++ e)) ∧
    (∀ (w : TxWorld) (args : ClaimArgs) (ok : Bool) (st : Nat) (sx : String)
        (es : List ClaimRequest) (txHash e : String),
        w.claimProofFetch = .resp ok st sx (.ok es) →
        w.sendResult = .ok txHash →
        w.receiptResult = .error e →
        (claim w args).result = .ok ("Error claiming yield from Yelay Vault: " ++ e)) := by
  refine ⟨?_, ?_, ?_, ?_, ?_⟩
  · intro w args ok st sx es txHash receipt hp hs hr
    refine ⟨by simp only [claim, hp, hs, hr], ?_⟩
    intro c
    refine ⟨?_, ?_, ?_, ?_⟩
    · exact strContains_of_eq _ "Claimed " c.yieldSharesTotal
        (" from Yelay Vault " ++ args.vaultAddress ++ " with transaction hash: " ++ txHash ++
          "\nTransaction receipt: " ++ receipt)
        (by simp [String.append_assoc])
    · exact strContains_of_eq _ ("Claimed " ++ c.yieldSharesTotal ++ " from Yelay Vault ")
        args.vaultAddress
        (" with transaction hash: " ++ txHash ++ "\nTransaction receipt: " ++ receipt)
        (by simp [String.append_assoc])
    · exact strContains_of_eq _ ("Claimed " ++ c.yieldSharesTotal ++ " from Yelay Vault " ++
          args.vaultAddress ++ " with transaction hash: ") txHash
        ("\nTransaction receipt: " ++ receipt)
        (by simp [String.append_assoc])
    · exact strContains_of_eq _ ("Claimed " ++ c.yieldSharesTotal ++ " from Yelay Vault " ++
          args.vaultAddress ++ " with transaction hash: " ++ txHash ++
          "\nTransaction receipt: ") receipt ""
        (by simp [String.append_assoc])
  · intro w args e hp
    simp only [claim, hp]
  · intro w args ok st sx e hp
    simp only [claim, hp]
  · intro w args ok st sx es e hp hs
    simp only [claim, hp, hs]
  · intro w args ok st sx es txHash e hp hs hr
    simp only [claim, hp, hs, hr]

/-- Witness for `claim_renders_entries_and_error_domains`: one concrete
entry renders one line; a rejected proof fetch and a reverted send get
their distinct prefixes. -/
theorem claim_renders_entries_and_error_domains_witness :
    claim txWorldOk ⟨addrA, "1", addrB⟩ =
      { result := .ok ("Claimed 100 from Yelay Vault " ++ addrA ++
          " with transaction hash: 0xabcdef1234567890\nTransaction receipt: receipt-json"),
        calls := [.fetchClaimProof,
          .sendTransaction txWorldOk.yieldExtractor (.claimCall [demoClaim]),
          .waitForReceipt "0xabcdef1234567890"] } ∧
    (claim { txWorldOk with claimProofFetch := .reject "Error: down" }
        ⟨addrA, "1", addrB⟩).result =
      .ok ("Error obtaining proof for yield to claim from Yelay Vault: " ++ "Error: down") ∧
    (claim { txWorldOk with sendResult := .error "Error: revert" } ⟨addrA, "1", addrB⟩).result =
      .ok ("Error claiming yield from Yelay Vault: " ++ "Error: revert") := by
  refine ⟨?_, ?_, ?_⟩
  · have h := claim_renders_entries_and_error_domains.1 txWorldOk ⟨addrA, "1", addrB⟩
      true 200 "OK" [demoClaim] "0xabcdef1234567890" "receipt-json" rfl rfl rfl
    rw [h.1]
    rfl
  · exact claim_renders_entries_and_error_domains.2.1 _ _ "Error: down" rfl
  · exact claim_renders_entries_and_error_domains.2.2.2.1 _ _ true 200 "OK" [demoClaim]
      "Error: revert" rfl rfl

/-- C10: when the claim-proof endpoint returns an empty entry list and
the transaction succeeds, `claim` still encodes and submits a claim
transaction with an empty entries array, awaits its receipt, and returns
the empty string (zero result lines). -/
theorem claim_empty_entries_still_submits (w : TxWorld) (args : ClaimArgs)
    (ok : Bool) (st : Nat) (sx txHash receipt : String)
    (hp : w.claimProofFetch = .resp ok st sx (.ok []))
    (hs : w.sendResult = .ok txHash)
    (hr : w.receiptResult = .ok receipt) :
    claim w args =
      { result := .ok "",
        calls := [.fetchClaimProof,
          .sendTransaction w.yieldExtractor (.claimCall []),
          .waitForReceipt txHash] } := by
  simp only [claim, hp, hs, hr]
  rfl

/-- Witness for `claim_empty_entries_still_submits`: the empty-proof
world submits the empty claim and returns `""`. -/
theorem claim_empty_entries_still_submits_witness :
    claim txWorldEmptyClaims ⟨addrA, "1", addrB⟩ =
      { result := .ok "",
        calls := [.fetchClaimProof,
          .sendTransaction "0xf3b5e160898cfd8b89476e77887050abb377c277" (.claimCall []),
          .waitForReceipt "0xabcdef1234567890"] } :=
  claim_empty_entries_still_submits txWorldEmptyClaims ⟨addrA, "1", addrB⟩
    true 200 "OK" "0xabcdef1234567890" "receipt-json" rfl rfl rfl

/-! ## Theorems: amount precheck -/

/-- C9: a deposit or redeem whose parsed `assets` value is ≤ 0 returns
the validation-error string with an empty call trace: no fetch, approve,
wallet send, or receipt wait happens. -/
theorem amount_precheck_short_circuits (w : TxWorld)
    (dargs : DepositArgs) (rargs : RedeemArgs) (vd vr : Int)
    (hd : bigIntOfString dargs.assets = some vd) (hd0 : vd ≤ 0)
    (hr : bigIntOfString rargs.assets = some vr) (hr0 : vr ≤ 0) :
    deposit w dargs =
      { result := .ok "Error: Assets amount must be greater than 0", calls := [] } ∧
    redeem w rargs =
      { result := .ok "Error: Assets amount must be greater than 0", calls := [] } := by
  constructor
  · simp only [deposit, hd, if_pos hd0]
  · simp only [redeem, hr, if_pos hr0]

/-- Witness for `amount_precheck_short_circuits`: `assets = "0"` on both
handlers returns the validation error with no external calls. -/
theorem amount_precheck_short_circuits_witness :
    deposit txWorldOk ⟨"0", addrA, addrB, addrA⟩ =
      { result := .ok "Error: Assets amount must be greater than 0", calls := [] } ∧
    redeem txWorldOk ⟨addrA, "0", addrA⟩ =
      { result := .ok "Error: Assets amount must be greater than 0", calls := [] } :=
  amount_precheck_short_circuits txWorldOk ⟨"0", addrA, addrB, addrA⟩ ⟨addrA, "0", addrA⟩
    0 0 (by decide) (by decide) (by decide) (by decide)

end Yelay
